import Mathlib

/-!
Verification development for the screenshot-driven navigation tool
(StarRailAutoProxy).  The definitions below are a shallow embedding of
the Python sources:

* `src/basic/img/cv2_utils.py` — `match_template`, `find_max_circle`,
  `concat_vertically`;
* `src/sr/constants/map.py` — `Planet`, `Region`, the region constants
  and the `PLANET_2_REGION` table;
* `src/sr/operation/unit/scale_large_map.py` — the `ScaleLargeMap`
  operation unit.

External library primitives (OpenCV calls) are modelled by their
documented contracts; their internal numerics are abstracted behind an
explicit score function, which the theorems quantify over.
-/

/-- Score value of a numpy float32 cell: a finite rational, one of the two
infinities, or NaN.  `cv2.matchTemplate` with a mask can produce non-finite
scores on degenerate regions, which is why `match_template` has an
`ignore_inf` switch. -/
inductive FVal where
  | fin (q : ℚ)
  | pinf
  | ninf
  | nan
deriving DecidableEq

/-- Comparison `v >= t` of a score cell against a finite threshold, with
numpy float semantics: `+inf >= t` is true, `-inf >= t` and `nan >= t` are
false. -/
def FVal.ge (v : FVal) (t : ℚ) : Bool :=
  match v with
  | .fin q => decide (t ≤ q)
  | .pinf => true
  | .ninf => false
  | .nan => false

/-- The `np.isfinite` test on a score cell. -/
def FVal.isFinite (v : FVal) : Bool :=
  match v with
  | .fin _ => true
  | _ => false

/-- Strict comparison `a > b` between two score cells, with float
semantics: any comparison involving NaN is false. -/
def FVal.gt (a b : FVal) : Bool :=
  match a, b with
  | _, .nan => false
  | .nan, _ => false
  | .pinf, .pinf => false
  | .pinf, _ => true
  | _, .pinf => false
  | .ninf, _ => false
  | .fin _, .ninf => true
  | .fin p, .fin q => decide (q < p)

/-- A raster image, reduced to its shape: `rows = shape[0]` (height) and
`cols = shape[1]` (width).  Pixel content only ever enters the embedded
functions through the external OpenCV primitives, which are abstracted by
an explicit score function. -/
structure Img where
  rows : Nat
  cols : Nat
deriving DecidableEq

/-- Modelled from the spec: class `MatchResult` lives in
`basic/img/__init__.py`, which is not under `src/`; spec section 3 gives
its fields — `confidence`, `x`, `y` (top-left in source coordinates) and
`w`, `h` (template size).  `x` and `y` are `Int` because callers shift
them (`result.max.x += x1` in `ScaleLargeMap.get_click_pos`). -/
structure MatchResult where
  confidence : FVal
  x : Int
  y : Int
  w : Nat
  h : Nat
deriving DecidableEq

/-- Modelled from the spec: `MatchResultList` (also in the missing
`basic/img/__init__.py`) is an ordered collection of `MatchResult`,
insertion order = discovery order, no uniqueness constraint. -/
abbrev MatchResultList := List MatchResult

/-- Row-major enumeration `(r, c, f r c)` of an `R × C` score map, the
order in which `np.where` reports matching indices. -/
def scoreGrid (f : Nat → Nat → FVal) (R C : Nat) : List (Nat × Nat × FVal) :=
  (List.range R).flatMap (fun r => (List.range C).map (fun c => (r, c, f r c)))

/-- The external primitive `cv2.matchTemplate(source, template,
cv2.TM_CCOEFF_NORMED, mask=mask)`, modelled from its documented contract:
it asserts that the template is no larger than the source (raising
`cv2.error` otherwise) and returns a score map of shape
`(rows - t.rows + 1) × (cols - t.cols + 1)`.  The normalized
cross-correlation numerics (which depend on the pixel data of `source`,
`template` and `mask`) are out of scope per the spec and are abstracted by
the score function `f`. -/
def cv2_matchTemplate (f : Nat → Nat → FVal) (source template : Img) :
    Except String (List (Nat × Nat × FVal)) :=
  if template.rows ≤ source.rows ∧ template.cols ≤ source.cols then
    Except.ok (scoreGrid f (source.rows - template.rows + 1) (source.cols - template.cols + 1))
  else
    Except.error "cv2.matchTemplate: template larger than source"

/-- The filter applied by `np.where(np.logical_and(result >= threshold,
np.isfinite(result) if ignore_inf else np.ones_like(result)))`. -/
def keepLocation (threshold : ℚ) (ignore_inf : Bool) (e : Nat × Nat × FVal) : Bool :=
  FVal.ge e.2.2 threshold && (if ignore_inf then FVal.isFinite e.2.2 else true)

/-- Embedding of `match_template` (cv2_utils.py lines 154-180).  Note the
source assigns `ty, tx = template.shape[1], template.shape[0]`, so
`ty = cols` (width) and `tx = rows` (height), and then builds
`MatchResult(confidence, pt[0], pt[1], tx, ty)` — `tx` lands in the `w`
slot and `ty` in the `h` slot. -/
def match_template (f : Nat → Nat → FVal) (source template : Img)
    (threshold : ℚ) (ignore_inf : Bool) : Except String MatchResultList :=
  let ty := template.cols
  let tx := template.rows
  match cv2_matchTemplate f source template with
  | Except.error e => Except.error e
  | Except.ok result =>
      Except.ok (((result.filter (keepLocation threshold ignore_inf)).map
        (fun e => MatchResult.mk e.2.2 (Int.ofNat e.2.1) (Int.ofNat e.1) tx ty)))

deriving instance DecidableEq for Except

/-- Reduction of a `MatchResultList` to its first maximum-confidence
entry, exactly as the loop in `concat_vertically` does it:
`for i in result: if r is None or i.confidence > r.confidence: r = i`. -/
def maxConfidence (l : MatchResultList) : Option MatchResult :=
  l.foldl
    (fun r i =>
      match r with
      | none => some i
      | some rr => if FVal.gt i.confidence rr.confidence then some i else some rr)
    none

/-- Embedding of `concat_vertically` (cv2_utils.py lines 218-239).  The
top `decision_height` rows of `next_img` are matched inside `img` at
threshold 0.5; the best hit `r` gives `overlap_h = h - r.y`, and the code
appends `next_img[overlap_h+1:, :]` below `img`.  A `None` best hit makes
the Python crash on `r.y` (an `AttributeError`), modelled as an error. -/
def concat_vertically (f : Nat → Nat → FVal) (img next_img : Img)
    (decision_height : Nat) : Except String Img :=
  let next_part : Img := { rows := min decision_height next_img.rows, cols := next_img.cols }
  match match_template f img next_part (mkRat 1 2) false with
  | Except.error e => Except.error e
  | Except.ok result =>
      match maxConfidence result with
      | none => Except.error "AttributeError: NoneType object has no attribute y"
      | some r =>
          let h := img.rows
          let overlap_h : Int := (h : Int) - r.y
          let extra_rows : Nat := next_img.rows - (overlap_h + 1).toNat
          Except.ok { rows := img.rows + extra_rows, cols := img.cols }

/-- A circle as reported by the Hough transform, after the
`np.uint16(np.around(...))` rounding performed by `find_max_circle`:
center `(x, y)` and radius `r`. -/
structure HoughCircle where
  x : Nat
  y : Nat
  r : Nat
deriving DecidableEq

/-- The external primitive `cv2.HoughCircles(gray, cv2.HOUGH_GRADIENT,
1.2, 100, minRadius=..., maxRadius=...)`, modelled from its documented
contract: the accumulator only tests radii between `minRadius` and
`maxRadius`, so every reported circle has its radius within those bounds,
and the call returns `None` when no circle is found.  The image content
is abstracted by `detected`, the circles the transform would report with
unconstrained radius bounds. -/
def cv2_HoughCircles (detected : List HoughCircle) (minRadius maxRadius : Nat) :
    Option (List HoughCircle) :=
  let l := detected.filter (fun c => decide (minRadius ≤ c.r) && decide (c.r ≤ maxRadius))
  if l.isEmpty then none else some l

/-- Embedding of `find_max_circle` (cv2_utils.py lines 183-215): Hough
detection with `minRadius=160, maxRadius=200`; `None` gives the sentinel
`(0, 0, 0)`; otherwise a fold keeps the circle with the strictly largest
radius seen so far (`if circle[2] > tr`). -/
def find_max_circle (detected : List HoughCircle) : Nat × Nat × Nat :=
  match cv2_HoughCircles detected 160 200 with
  | none => (0, 0, 0)
  | some circles =>
      circles.foldl (fun t c => if t.2.2 < c.r then (c.x, c.y, c.r) else t) (0, 0, 0)

/-- Embedding of class `Planet` (map.py lines 6-13). -/
structure Planet where
  id : String
  cn : String
deriving DecidableEq

def P01_KZJ : Planet := ⟨"kjzht", "空间站"⟩

def P02_YYL : Planet := ⟨"yll6", "雅利洛"⟩

def P03_XZLF : Planet := ⟨"zxlf", "罗浮"⟩

/-- Embedding of class `Region` (map.py lines 35-72).  The `planet` field
is an `Option` because the Python constructor accepts `None` (and the
constant `R0_GJCX` passes `None`). -/
structure Region where
  id : String
  cn : String
  planet : Option Planet
  level : Int
deriving DecidableEq

/-- Method `Region.get_pr_id`: `'%s-%s' % (self.planet.id, self.id)`.
When `planet` is `None` the Python raises `AttributeError`, modelled as
`none`. -/
def Region.get_pr_id (r : Region) : Option String :=
  r.planet.map (fun p => p.id ++ "-" ++ r.id)

/-- Method `Region.get_rl_id` (region id + floor id). -/
def Region.get_rl_id (r : Region) : String :=
  if r.level = 0 then r.id
  else if r.level > 0 then r.id ++ "-l" ++ toString r.level
  else r.id ++ "-b" ++ toString r.level.natAbs

/-- Method `Region.get_prl_id` (planet id + region id + floor id);
`none` models the `AttributeError` on a missing planet. -/
def Region.get_prl_id (r : Region) : Option String :=
  r.planet.map (fun p =>
    if r.level = 0 then p.id ++ "-" ++ r.id
    else if r.level > 0 then p.id ++ "-" ++ r.id ++ "-l" ++ toString r.level
    else p.id ++ "-" ++ r.id ++ "-b" ++ toString r.level.natAbs)

def R0_GJCX : Region := ⟨"gjcx", "观景车厢", none, 0⟩

def P01_R01_ZKCD : Region := ⟨"zkcd", "主控舱段", some P01_KZJ, 0⟩

def P01_R02_JZCD : Region := ⟨"jzcd", "基座舱段", some P01_KZJ, 0⟩

def P01_R03_SRCD_B1 : Region := ⟨"srcd", "收容舱段", some P01_KZJ, -1⟩

def P01_R03_SRCD_L1 : Region := ⟨"srcd", "收容舱段", some P01_KZJ, 1⟩

def P01_R03_SRCD_L2 : Region := ⟨"srcd", "收容舱段", some P01_KZJ, 2⟩

def P01_R04_ZYCD_L1 : Region := ⟨"zycd", "支援舱段", some P01_KZJ, 1⟩

def P01_R04_ZYCD_L2 : Region := ⟨"zycd", "支援舱段", some P01_KZJ, 2⟩

def P02_R01_L1 : Region := ⟨"xzq", "行政区", some P02_YYL, 1⟩

def P02_R01_B1 : Region := ⟨"xzq", "行政区", some P02_YYL, -1⟩

def P02_R02 : Region := ⟨"cjxy", "城郊雪原", some P02_YYL, 0⟩

def P02_R03 : Region := ⟨"bytl", "边缘通路", some P02_YYL, 0⟩

def P02_R04 : Region := ⟨"twjq", "铁卫禁区", some P02_YYL, 0⟩

def P02_R05 : Region := ⟨"cxhl", "残响回廊", some P02_YYL, 0⟩

def P02_R06 : Region := ⟨"ydl", "永冬岭", some P02_YYL, 0⟩

def P02_R07 : Region := ⟨"zwzz", "造物之柱", some P02_YYL, 0⟩

def P02_R08_L2 : Region := ⟨"jwqsyc", "旧武器试验场", some P02_YYL, 2⟩

def P02_R09 : Region := ⟨"pyz", "磐岩镇", some P02_YYL, 0⟩

def P02_R10 : Region := ⟨"dkq", "大矿区", some P02_YYL, 0⟩

def P02_R11_L1 : Region := ⟨"mdz", "铆钉镇", some P02_YYL, 1⟩

def P02_R11_L2 : Region := ⟨"mdz", "铆钉镇", some P02_YYL, 2⟩

/-- Embedding of the `PLANET_2_REGION` dict (map.py lines 99-103) as an
association list from planet id to the regions registered under it. -/
def PLANET_2_REGION : List (String × List Region) :=
  [(P01_KZJ.id, [P01_R01_ZKCD, P01_R02_JZCD, P01_R03_SRCD_L1, P01_R03_SRCD_L2,
                 P01_R03_SRCD_B1, P01_R04_ZYCD_L1, P01_R04_ZYCD_L2]),
   (P02_YYL.id, [P02_R01_L1, P02_R01_B1, P02_R02, P02_R03, P02_R04, P02_R05,
                 P02_R06, P02_R07, P02_R08_L2, P02_R09, P02_R10, P02_R11_L1, P02_R11_L2]),
   (P03_XZLF.id, [])]

/-- Modelled from the spec: the round outcome codes of the `Operation`
base class (`sr/operation`, not under `src/`); spec sections 4.3 and 6
list `SUCCESS`, `RETRY`, `WAIT`, `FAIL`. -/
inductive RoundResult where
  | SUCCESS
  | RETRY
  | WAIT
  | FAIL
deriving DecidableEq

/-- Modelled from the spec: the collaborators of `ScaleLargeMap` that are
not under `src/` — the `Context` with its controller (screenshot capture)
and image matcher (`ctx.im.match_template` plus `crop_image` on the fixed
rect).  `match_max` gives, for a template id and the index of a captured
screenshot, the maximum-confidence match inside the cropped rect, or
`none` when nothing matches (spec: absence is a normal return value). -/
structure SLMContext where
  match_max : String → Nat → Option MatchResult

/-- Mutable state of a `ScaleLargeMap` operation: the constructor
arguments and fields set in `__init__` (lines 16-24), plus a counter of
screenshots taken so far, which indexes into `SLMContext.match_max`. -/
structure ScaleLargeMapState where
  scale : Int
  click_times : Nat
  pos : Option MatchResult
  shots : Nat
deriving DecidableEq

/-- State produced by `ScaleLargeMap.__init__(ctx, scale)`:
`click_times = 0`, `pos = None`, no screenshot taken yet. -/
def ScaleLargeMap.init (scale : Int) : ScaleLargeMapState :=
  { scale := scale, click_times := 0, pos := none, shots := 0 }

/-- Embedding of `ScaleLargeMap.get_click_pos` (lines 42-51): take a
fresh screenshot, pick template `plus` or `minus` by the sign of `scale`,
match inside the fixed rect `Rect(600, 960, 1040, 1020)`, and shift the
best hit by the rect left-top `(600, 960)`.  Returns the (possibly
absent) hit and the new screenshot count. -/
def ScaleLargeMap.get_click_pos (ctx : SLMContext) (s : ScaleLargeMapState) :
    Option MatchResult × Nat :=
  let template_id := if s.scale > 0 then "plus" else "minus"
  let r := ctx.match_max template_id s.shots
  (r.map (fun m => { m with x := m.x + 600, y := m.y + 960 }), s.shots + 1)

/-- Embedding of `ScaleLargeMap._execute_one_round` (lines 26-40): fill
`pos` from a fresh screenshot when it is `None`; with a position, click,
bump `click_times`, and return `SUCCESS` exactly when
`click_times == abs(scale)`, else `WAIT`; with no position, `RETRY`. -/
def ScaleLargeMap.execute_one_round (ctx : SLMContext) (s : ScaleLargeMapState) :
    RoundResult × ScaleLargeMapState :=
  let s1 :=
    if s.pos.isNone then
      let pr := ScaleLargeMap.get_click_pos ctx s
      { s with pos := pr.1, shots := pr.2 }
    else s
  match s1.pos with
  | some _ =>
      let s2 := { s1 with click_times := s1.click_times + 1 }
      if s2.click_times = s2.scale.natAbs then (RoundResult.SUCCESS, s2)
      else (RoundResult.WAIT, s2)
  | none => (RoundResult.RETRY, s1)

/-- Embedding of `ScaleLargeMap.on_resume` (lines 53-55): re-derive
`self.pos` via `get_click_pos` from a fresh screenshot.  The base-class
`super().on_resume()` bookkeeping (not under `src/`) touches none of the
fields modelled here. -/
def ScaleLargeMap.on_resume (ctx : SLMContext) (s : ScaleLargeMapState) : ScaleLargeMapState :=
  let pr := ScaleLargeMap.get_click_pos ctx s
  { s with pos := pr.1, shots := pr.2 }

/-- State after `n` invocations of `_execute_one_round` starting from
state `s`. -/
def ScaleLargeMap.run_rounds (ctx : SLMContext) (s : ScaleLargeMapState) : Nat → ScaleLargeMapState
  | 0 => s
  | n + 1 => (ScaleLargeMap.execute_one_round ctx (ScaleLargeMap.run_rounds ctx s n)).2

/-- Characterization of the ok-branch of `match_template`: the template
fits and the result list is the filtered, mapped score grid. -/
lemma match_template_ok_iff (f : Nat → Nat → FVal) (source template : Img)
    (threshold : ℚ) (ignore_inf : Bool) (l : MatchResultList)
    (hok : match_template f source template threshold ignore_inf = Except.ok l) :
    template.rows ≤ source.rows ∧ template.cols ≤ source.cols ∧
    l = ((scoreGrid f (source.rows - template.rows + 1)
            (source.cols - template.cols + 1)).filter
          (keepLocation threshold ignore_inf)).map
        (fun e => MatchResult.mk e.2.2 (Int.ofNat e.2.1) (Int.ofNat e.1)
          template.rows template.cols) := by
  by_cases hc : template.rows ≤ source.rows ∧ template.cols ≤ source.cols
  · refine ⟨hc.1, hc.2, ?_⟩
    simp only [match_template, cv2_matchTemplate, if_pos hc, Except.ok.injEq] at hok
    exact hok.symm
  · simp only [match_template, cv2_matchTemplate, if_neg hc] at hok
    exact absurd hok (by simp)

/-- Membership in the row-major score grid. -/
lemma mem_scoreGrid (f : Nat → Nat → FVal) (R C r c : Nat)
    (hr : r < R) (hc : c < C) : (r, c, f r c) ∈ scoreGrid f R C := by
  unfold scoreGrid
  refine List.mem_flatMap.2 ⟨r, List.mem_range.2 hr, ?_⟩
  exact List.mem_map.2 ⟨c, List.mem_range.2 hc, rfl⟩

/-- C1: for every abstract score map, source, template and threshold in
the unit interval, every `MatchResult` returned by `match_template` has
confidence clearing the threshold, and (with `ignore_inf` off, its
default) every pixel location whose score clears the threshold appears in
the list — no non-maximum suppression. -/
theorem match_template_confidence_ge_threshold
    (f : Nat → Nat → FVal) (source template : Img) (threshold : ℚ)
    (ignore_inf : Bool) (l : MatchResultList)
    (h0 : 0 ≤ threshold) (h1 : threshold ≤ 1)
    (hok : match_template f source template threshold ignore_inf = Except.ok l) :
    (∀ mr ∈ l, FVal.ge mr.confidence threshold = true)
    ∧ (ignore_inf = false →
        ∀ r c : Nat, r + template.rows ≤ source.rows → c + template.cols ≤ source.cols →
          FVal.ge (f r c) threshold = true →
          ∃ mr ∈ l, mr.x = Int.ofNat c ∧ mr.y = Int.ofNat r ∧ mr.confidence = f r c) := by
  obtain ⟨hrows, hcols, hl⟩ := match_template_ok_iff f source template threshold ignore_inf l hok
  subst hl
  constructor
  · intro mr hmr
    obtain ⟨e, he, rfl⟩ := List.mem_map.1 hmr
    have hk := (List.mem_filter.1 he).2
    simp only [keepLocation, Bool.and_eq_true] at hk
    exact hk.1
  · intro hii r c hrb hcb hge
    have hrlt : r < source.rows - template.rows + 1 := by omega
    have hclt : c < source.cols - template.cols + 1 := by omega
    have hmemg : (r, c, f r c) ∈ scoreGrid f (source.rows - template.rows + 1)
        (source.cols - template.cols + 1) := mem_scoreGrid f _ _ r c hrlt hclt
    have hkeep : keepLocation threshold ignore_inf (r, c, f r c) = true := by
      subst hii
      simp only [keepLocation, if_neg (by simp : ¬ (false = true)), Bool.and_true]
      exact hge
    refine ⟨MatchResult.mk (f r c) (Int.ofNat c) (Int.ofNat r) template.rows template.cols,
      List.mem_map.2 ⟨(r, c, f r c), List.mem_filter.2 ⟨hmemg, hkeep⟩, rfl⟩, rfl, rfl, rfl⟩

/-- Constant all-ones score map used for concrete witnesses. -/
def f0 : Nat → Nat → FVal := fun _ _ => FVal.fin 1

/-- Concrete output of `match_template` on a 2x2 source with a 1x1
template under the all-ones score map. -/
def l0 : MatchResultList :=
  [MatchResult.mk (FVal.fin 1) 0 0 1 1, MatchResult.mk (FVal.fin 1) 1 0 1 1,
   MatchResult.mk (FVal.fin 1) 0 1 1 1, MatchResult.mk (FVal.fin 1) 1 1 1 1]

/-- Witness for the threshold guarantee at a concrete input. -/
theorem match_template_confidence_ge_threshold_witness :
    (0 ≤ (1 : ℚ)) ∧ ((1 : ℚ) ≤ 1)
    ∧ match_template f0 ⟨2, 2⟩ ⟨1, 1⟩ 1 false = Except.ok l0
    ∧ ((∀ mr ∈ l0, FVal.ge mr.confidence 1 = true)
       ∧ (false = false →
           ∀ r c : Nat, r + (⟨1, 1⟩ : Img).rows ≤ (⟨2, 2⟩ : Img).rows →
             c + (⟨1, 1⟩ : Img).cols ≤ (⟨2, 2⟩ : Img).cols →
             FVal.ge (f0 r c) 1 = true →
             ∃ mr ∈ l0, mr.x = Int.ofNat c ∧ mr.y = Int.ofNat r ∧ mr.confidence = f0 r c)) :=
  ⟨by norm_num, le_refl 1, by decide,
   match_template_confidence_ge_threshold f0 ⟨2, 2⟩ ⟨1, 1⟩ 1 false l0
     (by norm_num) (le_refl 1) (by decide)⟩

/-- Filtering with a weaker predicate keeps at least as many elements. -/
lemma length_filter_mono {α : Type} (p q : α → Bool) (l : List α)
    (h : ∀ a, p a = true → q a = true) :
    (l.filter p).length ≤ (l.filter q).length := by
  induction l with
  | nil => simp
  | cons a t ih =>
      simp only [List.filter_cons]
      by_cases hp : p a = true
      · rw [if_pos hp, if_pos (h a hp)]
        simpa using ih
      · rw [if_neg hp]
        split
        · exact Nat.le_succ_of_le ih
        · exact ih

/-- Raising the threshold can only shrink the set of scores clearing it. -/
lemma FVal.ge_anti {v : FVal} {t1 t2 : ℚ} (h : t1 ≤ t2)
    (hv : FVal.ge v t2 = true) : FVal.ge v t1 = true := by
  cases v with
  | fin q =>
      simp only [FVal.ge, decide_eq_true_eq] at hv ⊢
      exact le_trans h hv
  | pinf => rfl
  | ninf => exact hv
  | nan => exact hv

/-- C4: for a fixed source, template and score map, raising the threshold
never increases the number of results `match_template` returns. -/
theorem match_template_count_antitone
    (f : Nat → Nat → FVal) (source template : Img) (t1 t2 : ℚ)
    (ignore_inf : Bool) (l1 l2 : MatchResultList)
    (h12 : t1 ≤ t2)
    (hok1 : match_template f source template t1 ignore_inf = Except.ok l1)
    (hok2 : match_template f source template t2 ignore_inf = Except.ok l2) :
    l2.length ≤ l1.length := by
  obtain ⟨_, _, hl1⟩ := match_template_ok_iff f source template t1 ignore_inf l1 hok1
  obtain ⟨_, _, hl2⟩ := match_template_ok_iff f source template t2 ignore_inf l2 hok2
  subst hl1
  subst hl2
  simp only [List.length_map]
  refine length_filter_mono _ _ _ ?_
  intro e hk
  simp only [keepLocation, Bool.and_eq_true] at hk ⊢
  exact ⟨FVal.ge_anti h12 hk.1, hk.2⟩

/-- Witness for threshold monotonicity at a concrete input. -/
theorem match_template_count_antitone_witness :
    ((0 : ℚ) ≤ 1)
    ∧ match_template f0 ⟨2, 2⟩ ⟨1, 1⟩ 0 false = Except.ok l0
    ∧ match_template f0 ⟨2, 2⟩ ⟨1, 1⟩ 1 false = Except.ok l0
    ∧ l0.length ≤ l0.length :=
  ⟨by norm_num, by decide, by decide,
   match_template_count_antitone f0 ⟨2, 2⟩ ⟨1, 1⟩ 0 1 false l0 l0
     (by norm_num) (by decide) (by decide)⟩

/-- C2 (divergence witness): on a 2-row, 3-column template the single
result of `match_template` carries `w = 2` and `h = 3`, i.e. `w` receives
`template.shape[0]` (the height, number of rows) and `h` receives
`template.shape[1]` (the width, number of columns) — swapped relative to
the documented `(w, h) = (width, height)`. -/
theorem match_template_swaps_w_h :
    match_template f0 ⟨2, 3⟩ ⟨2, 3⟩ 1 false
      = Except.ok [MatchResult.mk (FVal.fin 1) 0 0 2 3]
    ∧ (MatchResult.mk (FVal.fin 1) 0 0 2 3).w = (⟨2, 3⟩ : Img).rows
    ∧ (MatchResult.mk (FVal.fin 1) 0 0 2 3).w ≠ (⟨2, 3⟩ : Img).cols
    ∧ (MatchResult.mk (FVal.fin 1) 0 0 2 3).h = (⟨2, 3⟩ : Img).cols := by
  refine ⟨by decide, rfl, by decide, rfl⟩

/-- C3 (counterexample): with a 2x2 template and a 1x1 source,
`match_template` propagates the error of the underlying primitive instead
of returning an empty list. -/
theorem match_template_large_template_cex :
    match_template f0 ⟨1, 1⟩ ⟨2, 2⟩ 1 false
      = Except.error "cv2.matchTemplate: template larger than source" := by
  decide

/-- C3 (amended): whenever the template exceeds the source in at least
one dimension, `match_template` raises — it propagates the assertion
failure of `cv2.matchTemplate` rather than returning an empty result. -/
theorem match_template_large_template_raises
    (f : Nat → Nat → FVal) (source template : Img) (threshold : ℚ) (ignore_inf : Bool)
    (h : source.rows < template.rows ∨ source.cols < template.cols) :
    match_template f source template threshold ignore_inf
      = Except.error "cv2.matchTemplate: template larger than source" := by
  have hc : ¬ (template.rows ≤ source.rows ∧ template.cols ≤ source.cols) := by omega
  simp only [match_template, cv2_matchTemplate, if_neg hc]

/-- Witness for the amended oversized-template behaviour. -/
theorem match_template_large_template_raises_witness :
    ((⟨1, 1⟩ : Img).rows < (⟨2, 2⟩ : Img).rows ∨ (⟨1, 1⟩ : Img).cols < (⟨2, 2⟩ : Img).cols)
    ∧ match_template f0 ⟨1, 1⟩ ⟨2, 2⟩ 1 false
        = Except.error "cv2.matchTemplate: template larger than source" :=
  ⟨Or.inl (by decide),
   match_template_large_template_raises f0 ⟨1, 1⟩ ⟨2, 2⟩ 1 false (Or.inl (by decide))⟩

/-- The keep-the-largest-radius fold of `find_max_circle` dominates its
accumulator and every radius in the list. -/
lemma foldl_keep_max_radius (l : List HoughCircle) (t : Nat × Nat × Nat) :
    t.2.2 ≤ (l.foldl (fun t c => if t.2.2 < c.r then (c.x, c.y, c.r) else t) t).2.2
    ∧ ∀ c ∈ l, c.r ≤ (l.foldl (fun t c => if t.2.2 < c.r then (c.x, c.y, c.r) else t) t).2.2 := by
  induction l generalizing t with
  | nil => simp
  | cons a l ih =>
      simp only [List.foldl_cons]
      have h1 : t.2.2 ≤ (if t.2.2 < a.r then (a.x, a.y, a.r) else t).2.2
          ∧ a.r ≤ (if t.2.2 < a.r then (a.x, a.y, a.r) else t).2.2 := by
        by_cases h : t.2.2 < a.r
        · rw [if_pos h]
          exact ⟨Nat.le_of_lt h, le_refl _⟩
        · rw [if_neg h]
          exact ⟨le_refl _, Nat.le_of_not_lt h⟩
      obtain ⟨iha, ihb⟩ := ih (if t.2.2 < a.r then (a.x, a.y, a.r) else t)
      refine ⟨le_trans h1.1 iha, ?_⟩
      intro c hc
      rcases List.mem_cons.1 hc with rfl | hc
      · exact le_trans h1.2 iha
      · exact ihb c hc

/-- C5 (counterexample): with two overlapping circles of radius 10 and
20, both outside the Hough radius bounds `[160, 200]`, `find_max_circle`
returns the sentinel `(0, 0, 0)`, not the radius-20 circle. -/
theorem find_max_circle_small_radii_cex :
    find_max_circle [⟨30, 30, 10⟩, ⟨40, 40, 20⟩] = (0, 0, 0)
    ∧ ((0 : Nat), (0 : Nat), (0 : Nat)) ≠ ((40 : Nat), (40 : Nat), (20 : Nat)) := by
  decide

/-- C5 (amended): among the circles the Hough transform reports — those
with radius within the configured bounds `[160, 200]` — `find_max_circle`
returns a circle whose radius dominates every one of them (the
largest-radius tie-break). -/
theorem find_max_circle_keeps_largest
    (detected : List HoughCircle) (c : HoughCircle)
    (hmem : c ∈ detected) (h160 : 160 ≤ c.r) (h200 : c.r ≤ 200) :
    c.r ≤ (find_max_circle detected).2.2 := by
  have hcf : c ∈ detected.filter (fun c => decide (160 ≤ c.r) && decide (c.r ≤ 200)) :=
    List.mem_filter.2 ⟨hmem, by simp [h160, h200]⟩
  unfold find_max_circle cv2_HoughCircles
  have hne : (detected.filter (fun c => decide (160 ≤ c.r) && decide (c.r ≤ 200))).isEmpty = false := by
    cases hl : detected.filter (fun c => decide (160 ≤ c.r) && decide (c.r ≤ 200)) with
    | nil => rw [hl] at hcf; cases hcf
    | cons a l => rfl
  simp only [hne, Bool.false_eq_true, if_false]
  exact (foldl_keep_max_radius _ (0, 0, 0)).2 c hcf

/-- Witness for the largest-radius tie-break with two in-range circles of
radius 160 and 200. -/
theorem find_max_circle_keeps_largest_witness :
    ((⟨8, 8, 200⟩ : HoughCircle) ∈ [(⟨5, 5, 160⟩ : HoughCircle), ⟨8, 8, 200⟩]
     ∧ 160 ≤ 200 ∧ 200 ≤ 200)
    ∧ 200 ≤ (find_max_circle [⟨5, 5, 160⟩, ⟨8, 8, 200⟩]).2.2 :=
  ⟨⟨by decide, by decide, by decide⟩,
   find_max_circle_keeps_largest [⟨5, 5, 160⟩, ⟨8, 8, 200⟩] ⟨8, 8, 200⟩
     (by decide) (by decide) (by decide)⟩

/-- C6: when circle detection reports no circle, `find_max_circle`
returns the sentinel `(0, 0, 0)` as a normal value. -/
theorem find_max_circle_none_sentinel (detected : List HoughCircle)
    (h : cv2_HoughCircles detected 160 200 = none) :
    find_max_circle detected = (0, 0, 0) := by
  unfold find_max_circle
  rw [h]

/-- Witness for the sentinel on an input with no detectable circle. -/
theorem find_max_circle_none_sentinel_witness :
    cv2_HoughCircles [⟨9, 9, 40⟩] 160 200 = none
    ∧ find_max_circle [⟨9, 9, 40⟩] = (0, 0, 0) :=
  ⟨by decide, find_max_circle_none_sentinel [⟨9, 9, 40⟩] (by decide)⟩

/-- Score map for the stitching scenario: the 200-row top strip of the
second capture matches perfectly (score 1) at row 100 of the first
capture and nowhere else. -/
def f7 : Nat → Nat → FVal := fun r _ => if r = 100 then FVal.fin 1 else FVal.fin 0

/-- C7 (divergence witness): two 300-row captures whose contents overlap
by exactly 200 rows (the top strip of the second best-matches at
`y = 100`) stitch to 399 rows — `next_img[overlap_h+1:, :]` drops one row
of the non-overlapping remainder — instead of the documented
`h1 + h2 - 200 = 400`. -/
theorem concat_vertically_off_by_one :
    concat_vertically f7 ⟨300, 100⟩ ⟨300, 100⟩ 200 = Except.ok ⟨399, 100⟩
    ∧ 399 ≠ 300 + 300 - 200 := by
  refine ⟨by decide, by decide⟩

/-- C8 (counterexample): the region constant `R0_GJCX` (the starting
train car) is constructed with `planet = None`, so it belongs to no
planet and its folder ids `get_pr_id` / `get_prl_id` are undefined
(`AttributeError` in the Python). -/
theorem R0_GJCX_no_planet :
    R0_GJCX.planet = none
    ∧ Region.get_pr_id R0_GJCX = none
    ∧ Region.get_prl_id R0_GJCX = none := by
  exact ⟨rfl, rfl, rfl⟩

/-- C8 (amended): every region registered in the `PLANET_2_REGION` world
graph has a planet, that planet is the one whose id keys its entry, and
its folder ids `get_pr_id` / `get_prl_id` are defined. -/
theorem planet_2_region_well_formed :
    PLANET_2_REGION.all (fun pr => pr.2.all (fun r =>
      r.planet.isSome
      && (Region.get_pr_id r).isSome
      && (Region.get_prl_id r).isSome
      && (r.planet.map Planet.id == some pr.1))) = true := by
  decide

/-- C9: resuming a paused `ScaleLargeMap` discards whatever click target
was cached before the pause — for every cached value `p`, `on_resume`
overwrites `pos` with the result of `get_click_pos` computed from the
screenshot captured at resume time (capture index `s.shots`, taken fresh:
the screenshot counter advances). -/
theorem scale_large_map_on_resume_rederives
    (ctx : SLMContext) (s : ScaleLargeMapState) (p : Option MatchResult) :
    (ScaleLargeMap.on_resume ctx { s with pos := p }).pos
        = (ScaleLargeMap.get_click_pos ctx s).1
    ∧ (ScaleLargeMap.get_click_pos ctx s).1
        = (ctx.match_max (if s.scale > 0 then "plus" else "minus") s.shots).map
            (fun m => { m with x := m.x + 600, y := m.y + 960 })
    ∧ (ScaleLargeMap.on_resume ctx { s with pos := p }).shots = s.shots + 1 := by
  exact ⟨rfl, rfl, rfl⟩

/-- One round of `ScaleLargeMap` under a matcher that always finds the
button: the outcome is `SUCCESS` exactly when the bumped click counter
hits `abs(scale)`, else `WAIT`, and the counter always advances by one. -/
lemma scale_large_map_step (ctx : SLMContext)
    (hfound : ∀ t k, (ctx.match_max t k).isSome = true) (s : ScaleLargeMapState) :
    (ScaleLargeMap.execute_one_round ctx s).1
        = (if s.click_times + 1 = s.scale.natAbs then RoundResult.SUCCESS else RoundResult.WAIT)
    ∧ (ScaleLargeMap.execute_one_round ctx s).2.click_times = s.click_times + 1
    ∧ (ScaleLargeMap.execute_one_round ctx s).2.scale = s.scale := by
  cases hp : s.pos with
  | some m =>
      by_cases hcond : s.click_times + 1 = s.scale.natAbs
      · simp [ScaleLargeMap.execute_one_round, hp, hcond]
      · simp [ScaleLargeMap.execute_one_round, hp, hcond]
  | none =>
      obtain ⟨m, hm⟩ := Option.isSome_iff_exists.mp
        (hfound (if s.scale > 0 then "plus" else "minus") s.shots)
      by_cases hcond : s.click_times + 1 = s.scale.natAbs
      · simp [ScaleLargeMap.execute_one_round, ScaleLargeMap.get_click_pos, hp, hm, hcond]
      · simp [ScaleLargeMap.execute_one_round, ScaleLargeMap.get_click_pos, hp, hm, hcond]

/-- Under an always-successful matcher, after `n` rounds from the initial
state the click counter equals `n` and the scale is unchanged. -/
lemma scale_large_map_run_rounds_count (ctx : SLMContext) (scale : Int)
    (hfound : ∀ t k, (ctx.match_max t k).isSome = true) (n : Nat) :
    (ScaleLargeMap.run_rounds ctx (ScaleLargeMap.init scale) n).click_times = n
    ∧ (ScaleLargeMap.run_rounds ctx (ScaleLargeMap.init scale) n).scale = scale := by
  induction n with
  | zero => exact ⟨rfl, rfl⟩
  | succ n ih =>
      have h := scale_large_map_step ctx hfound (ScaleLargeMap.run_rounds ctx (ScaleLargeMap.init scale) n)
      refine ⟨?_, ?_⟩
      · show (ScaleLargeMap.execute_one_round ctx _).2.click_times = n + 1
        rw [h.2.1, ih.1]
      · show (ScaleLargeMap.execute_one_round ctx _).2.scale = scale
        rw [h.2.2, ih.2]

/-- C10: with the click position found every round, round `n + 1` of a
`ScaleLargeMap` constructed with `scale` returns `WAIT` strictly before
the cumulative click count reaches `abs(scale)`, returns `SUCCESS`
exactly on the round where it reaches `abs(scale)`, and for `scale = 0`
no round ever returns `SUCCESS` (the counter is already 1 after the first
click, so it can never equal `abs(0) = 0`). -/
theorem scale_large_map_round_outcomes (ctx : SLMContext) (scale : Int)
    (hfound : ∀ t k, (ctx.match_max t k).isSome = true) :
    (∀ n : Nat, n + 1 < scale.natAbs →
        (ScaleLargeMap.execute_one_round ctx
          (ScaleLargeMap.run_rounds ctx (ScaleLargeMap.init scale) n)).1 = RoundResult.WAIT)
    ∧ (∀ n : Nat,
        (ScaleLargeMap.execute_one_round ctx
          (ScaleLargeMap.run_rounds ctx (ScaleLargeMap.init scale) n)).1 = RoundResult.SUCCESS
        ↔ n + 1 = scale.natAbs)
    ∧ (scale = 0 → ∀ n : Nat,
        (ScaleLargeMap.execute_one_round ctx
          (ScaleLargeMap.run_rounds ctx (ScaleLargeMap.init scale) n)).1 ≠ RoundResult.SUCCESS) := by
  have hbase : ∀ n : Nat,
      (ScaleLargeMap.execute_one_round ctx
        (ScaleLargeMap.run_rounds ctx (ScaleLargeMap.init scale) n)).1
      = (if n + 1 = scale.natAbs then RoundResult.SUCCESS else RoundResult.WAIT) := by
    intro n
    have h := scale_large_map_step ctx hfound (ScaleLargeMap.run_rounds ctx (ScaleLargeMap.init scale) n)
    have hc := scale_large_map_run_rounds_count ctx scale hfound n
    rw [h.1, hc.1, hc.2]
  refine ⟨?_, ?_, ?_⟩
  · intro n hn
    rw [hbase n, if_neg (by omega)]
  · intro n
    by_cases h : n + 1 = scale.natAbs
    · rw [hbase n, if_pos h]
      simp [h]
    · rw [hbase n, if_neg h]
      simp [h]
  · intro h0 n
    rw [hbase n, if_neg (by simp [h0])]
    decide

/-- Match result used by the concrete `ScaleLargeMap` witness. -/
def mrW : MatchResult := ⟨FVal.fin 1, 3, 4, 5, 6⟩

/-- Context whose matcher always finds the zoom button. -/
def ctxW : SLMContext := ⟨fun _ _ => some mrW⟩

/-- Witness: with `scale = 2` and the button always found, round 1 is
`WAIT` and round 2 is `SUCCESS`. -/
theorem scale_large_map_round_outcomes_witness :
    (∀ t k, (SLMContext.match_max ctxW t k).isSome = true)
    ∧ (ScaleLargeMap.execute_one_round ctxW
        (ScaleLargeMap.run_rounds ctxW (ScaleLargeMap.init 2) 0)).1 = RoundResult.WAIT
    ∧ (ScaleLargeMap.execute_one_round ctxW
        (ScaleLargeMap.run_rounds ctxW (ScaleLargeMap.init 2) 1)).1 = RoundResult.SUCCESS := by
  refine ⟨fun _ _ => rfl, ?_, ?_⟩
  · have h := (scale_large_map_round_outcomes ctxW 2 (fun _ _ => rfl)).1 0 (by decide)
    exact h
  · have h := ((scale_large_map_round_outcomes ctxW 2 (fun _ _ => rfl)).2.1 1).mpr (by decide)
    exact h
